import Mathlib

/-!
Verification of the Auth & RBAC guard subsystem of the monorepo.

The definitions below are a shallow embedding of:
- `packages/types/src/repository/user.ts` (`UserInformation` shape),
- `packages/elysia/src/plugins/auth.plugin.ts` (`checkRoles`, `checkPermissions`,
  the `rbac` macro, `requireRoles`, `requirePermissions`, the `derive` pipeline),
- `packages/elysia/src/guards/role.guard.ts` and `permission.guard.ts`,
- the `UserRepository.UserInformation` query (user row filtered by id,
  active status and null `deleted_at`, with roles and flattened permissions),
- the variant auth plugin (`rbac` macro without the length guard).

JavaScript exceptions are modelled with `Except`; the distinction between the
`UnauthorizedError` subclass of the elysia package and the base class of
`@repo/types` is kept, because the catch handler in the derive pipeline tests
`instanceof` against the subclass only.  External collaborators (JWT
verification, the cache provider, the database) are modelled as explicit
oracle parameters and state so that the pipeline is an executable function.
-/

namespace MonorepoAuth

/-- Resolved caller record, from `packages/types` (`UserInformation`). -/
structure UserInformation where
  id : String
  name : String
  email : String
  roles : List String
  permissions : List String
deriving DecidableEq

/-- Errors thrown by the subsystem.  `unauthorized` is the elysia
`UnauthorizedError` subclass, `unauthorizedBase` the `@repo/types` base class
thrown by the repository, `forbidden` the `ForbiddenError`, and `ioError`
stands for any other runtime exception (cache or storage I/O failure). -/
inductive AuthError where
  | unauthorizedBase (msg : String)
  | unauthorized (msg : String)
  | forbidden (msg : String)
  | ioError (msg : String)
deriving DecidableEq

/-- The `error instanceof UnauthorizedError` test of the derive pipeline:
only instances of the elysia subclass satisfy it (a base-class instance is
not an instance of the subclass). -/
def AuthError.isElysiaUnauthorized : AuthError → Bool
  | .unauthorized _ => true
  | _ => false

/-- Embeds `checkRoles` of `auth.plugin.ts`: superuser bypass, then any-of. -/
def checkRoles (user : UserInformation) (requiredRoles : List String)
    (superuserRole : String) : Bool :=
  if user.roles.contains superuserRole then true
  else requiredRoles.any (fun role => user.roles.contains role)

/-- Embeds `checkPermissions` of `auth.plugin.ts`: superuser bypass, then all-of. -/
def checkPermissions (user : UserInformation) (requiredPermissions : List String)
    (superuserRole : String) : Bool :=
  if user.roles.contains superuserRole then true
  else requiredPermissions.all (fun permission => user.permissions.contains permission)

/-- Error messages resolved in the `AuthPlugin` factory. -/
structure AuthMessages where
  noToken : String
  invalidToken : String
  userNotFound : String
deriving DecidableEq

/-- Default messages of the `AuthPlugin` factory. -/
def defaultMessages : AuthMessages :=
  ⟨"Authentication required", "Invalid authentication token", "User not found"⟩

/-- Message of the `ForbiddenError` thrown for a failed role check. -/
def rolesForbiddenMsg : String :=
  "You do not have the required roles to access this resource."

/-- Message of the `ForbiddenError` thrown for a failed permission check. -/
def permissionsForbiddenMsg : String :=
  "You do not have the required permissions to access this resource."

/-- Embeds `RBACGuardOptions` of `auth.plugin.ts`. -/
structure RBACGuardOptions where
  roles : Option (List String)
  permissions : Option (List String)
  superuserRole : Option String
deriving DecidableEq

/-- Embeds the `rbac` macro of `auth.plugin.ts` (lines 283-313): missing user
throws Unauthorized; a declared non-empty roles list must pass `checkRoles`;
a declared non-empty permissions list must pass `checkPermissions`. -/
def rbacGuard (msgs : AuthMessages) (user : Option UserInformation)
    (config : RBACGuardOptions) : Except AuthError Unit :=
  match user with
  | none => Except.error (AuthError.unauthorized msgs.noToken)
  | some u =>
    let superuserRole := config.superuserRole.getD "superuser"
    let rolesFail : Bool :=
      match config.roles with
      | some rs => !rs.isEmpty && !checkRoles u rs superuserRole
      | none => false
    if rolesFail then Except.error (AuthError.forbidden rolesForbiddenMsg)
    else
      let permsFail : Bool :=
        match config.permissions with
        | some ps => !ps.isEmpty && !checkPermissions u ps superuserRole
        | none => false
      if permsFail then Except.error (AuthError.forbidden permissionsForbiddenMsg)
      else Except.ok ()

/-- Embeds the `rbac` macro of the variant auth plugin: same shape, but a
declared list is checked whether empty or not (`if (roles && !checkRoles(...))`,
and an empty array is truthy in JavaScript), and the superuser role is the
default. -/
def rbacGuardVariant (msgs : AuthMessages) (user : Option UserInformation)
    (roleList permList : Option (List String)) : Except AuthError Unit :=
  match user with
  | none => Except.error (AuthError.unauthorized msgs.noToken)
  | some u =>
    let rolesFail : Bool :=
      match roleList with
      | some rs => !checkRoles u rs "superuser"
      | none => false
    if rolesFail then Except.error (AuthError.forbidden rolesForbiddenMsg)
    else
      let permsFail : Bool :=
        match permList with
        | some ps => !checkPermissions u ps "superuser"
        | none => false
      if permsFail then Except.error (AuthError.forbidden permissionsForbiddenMsg)
      else Except.ok ()

/-- Embeds the standalone `requireRoles` helper of `auth.plugin.ts`. -/
def requireRoles (user : UserInformation) (roles : List String)
    (superuserRole : String) : Except AuthError Unit :=
  if !checkRoles user roles superuserRole then
    Except.error (AuthError.forbidden rolesForbiddenMsg)
  else Except.ok ()

/-- Embeds the standalone `requirePermissions` helper of `auth.plugin.ts`. -/
def requirePermissions (user : UserInformation) (permissions : List String)
    (superuserRole : String) : Except AuthError Unit :=
  if !checkPermissions user permissions superuserRole then
    Except.error (AuthError.forbidden permissionsForbiddenMsg)
  else Except.ok ()

/-- Embeds `RoleGuard.canActivate` of `role.guard.ts`: superuser bypass, then
any-of over required roles, throwing `ForbiddenError` when none is held. -/
def RoleGuard.canActivate (user : UserInformation) (requiredRoles : List String)
    (superuserRole : String) : Except AuthError Bool :=
  if user.roles.contains superuserRole then Except.ok true
  else if requiredRoles.any (fun role => user.roles.contains role) then Except.ok true
  else Except.error (AuthError.forbidden rolesForbiddenMsg)

/-- Embeds `PermissionGuard.canActivate` of `permission.guard.ts`: superuser
bypass, then all-of over required permissions. -/
def PermissionGuard.canActivate (user : UserInformation)
    (requiredPermissions : List String) (superuserRole : String) :
    Except AuthError Bool :=
  if user.roles.contains superuserRole then Except.ok true
  else if requiredPermissions.all (fun p => user.permissions.contains p) then Except.ok true
  else Except.error (AuthError.forbidden permissionsForbiddenMsg)

/-- Database row model for a role together with its flattened permission
names (the `user_roles -> role -> role_permissions -> permission` join of the
`UserInformation` query). -/
structure RoleRow where
  id : String
  name : String
  permissionNames : List String
deriving DecidableEq

/-- Database row model for a user with the joined role rows. -/
structure UserRow where
  id : String
  name : String
  email : String
  status : String
  deleted_at : Option Nat
  roleRows : List RoleRow
deriving DecidableEq

/-- Embeds `UserRepository.UserInformation`: `findFirst` on
`id = userId AND status = "active" AND deleted_at IS NULL`; when no row
matches it throws the base `UnauthorizedError("User not found")`, else it
assembles the `UserInformation` with role names and permissions flattened
across the roles. -/
def userInformationQuery (db : List UserRow) (userId : String) :
    Except AuthError UserInformation :=
  match db.find? (fun row =>
      row.id == userId && row.status == "active" && row.deleted_at.isNone) with
  | none => Except.error (AuthError.unauthorizedBase "User not found")
  | some row =>
    Except.ok ⟨row.id, row.name, row.email,
      row.roleRows.map (fun r => r.name),
      (row.roleRows.map (fun r => r.permissionNames)).flatten⟩

/-- JavaScript value found in the `id` field of a decoded JWT payload:
a string, a number, some other truthy value (object), or undefined. -/
inductive JsId where
  | str (s : String)
  | num (n : Int)
  | objVal
  | undef
deriving DecidableEq

/-- JavaScript truthiness of the `id` field (`!payload.id`). -/
def JsId.truthy : JsId → Bool
  | .str s => !(s == "")
  | .num n => !(n == 0)
  | .objVal => true
  | .undef => false

/-- The userId normalization of the derive pipeline: a string id is kept, a
number id goes through `String(...)`, anything else yields null. -/
def JsId.normalize : JsId → Option String
  | .str s => some s
  | .num n => some (toString n)
  | .objVal => none
  | .undef => none

/-- Decoded JWT payload (`JWTPayload` of `auth.plugin.ts`); only the `id`
field is consumed by the pipeline. -/
structure JWTPayload where
  id : JsId
deriving DecidableEq

/-- Embeds `getUserCacheKey` of `auth.plugin.ts`. -/
def getUserCacheKey (userId : String) (pfx : String) : String :=
  pfx ++ userId

/-- State of the external cache provider, with explicit fault injection:
`getFails` (resp. `setFails`) lists the keys on which `get` (resp. `set`)
throws an I/O error instead of completing. -/
structure CacheModel where
  entries : List (String × UserInformation × Nat)
  getFails : List String
  setFails : List String
deriving DecidableEq

/-- Value currently stored under a key (no eviction is modelled). -/
def CacheModel.lookup (c : CacheModel) (key : String) : Option UserInformation :=
  (c.entries.find? (fun e => e.fst == key)).map (fun e => e.snd.fst)

/-- The cache provider `get`: may throw, else returns the entry or null. -/
def CacheModel.get (c : CacheModel) (key : String) :
    Except AuthError (Option UserInformation) :=
  if c.getFails.contains key then Except.error (AuthError.ioError "cache get failed")
  else Except.ok (c.lookup key)

/-- The cache provider `set`: may throw, else overwrites the key. -/
def CacheModel.set (c : CacheModel) (key : String) (value : UserInformation)
    (ttl : Nat) : Except AuthError CacheModel :=
  if c.setFails.contains key then Except.error (AuthError.ioError "cache set failed")
  else Except.ok ⟨(key, value, ttl) :: c.entries.filter (fun e => !(e.fst == key)),
    c.getFails, c.setFails⟩

/-- Cache options of `AuthPluginOptions.cache` (the provider itself is the
`CacheModel` state passed separately). -/
structure CacheConfig where
  ttl : Option Nat
  keyPfx : Option String
deriving DecidableEq

instance {ε α : Type} [DecidableEq ε] [DecidableEq α] : DecidableEq (Except ε α) :=
  fun a b =>
    match a, b with
    | .ok x, .ok y => decidable_of_iff (x = y) (by simp)
    | .error x, .error y => decidable_of_iff (x = y) (by simp)
    | .ok _, .error _ => isFalse (by simp)
    | .error _, .ok _ => isFalse (by simp)

/-- Result of one run of the derive pipeline: the outcome (`user` context
value or thrown error), the cache state afterwards, and how many times the
storage load was invoked. -/
structure DeriveOutcome where
  result : Except AuthError (Option UserInformation)
  cacheAfter : CacheModel
  storageCalls : Nat
deriving DecidableEq

/-- The `try` block of the derive pipeline of `auth.plugin.ts` (lines
218-265): JWT verification, payload checks, cache read, storage load on a
miss, cache write.  `verify` is the `jwt.verify` oracle (`none` models the
library returning `false`), `storageFault` injects an I/O error into the
storage load.  Returns the raised error or the user, with the cache state
and the storage call count. -/
def tryResolve (msgs : AuthMessages) (cacheCfg : Option CacheConfig)
    (cache : CacheModel) (db : List UserRow) (storageFault : Bool)
    (tok : String) (verify : String → Option JWTPayload) :
    Except AuthError UserInformation × CacheModel × Nat :=
  match verify tok with
  | none => (Except.error (AuthError.unauthorized msgs.invalidToken), cache, 0)
  | some payload =>
    if !payload.id.truthy then
      (Except.error (AuthError.unauthorized msgs.invalidToken), cache, 0)
    else
      match payload.id.normalize with
      | none => (Except.error (AuthError.unauthorized "Invalid user ID in token"), cache, 0)
      | some userId =>
        let fromCache : Except AuthError (Option UserInformation) :=
          match cacheCfg with
          | some cfg => cache.get (getUserCacheKey userId (cfg.keyPfx.getD "user:"))
          | none => Except.ok none
        match fromCache with
        | Except.error e => (Except.error e, cache, 0)
        | Except.ok (some u) => (Except.ok u, cache, 0)
        | Except.ok none =>
          if storageFault then
            (Except.error (AuthError.ioError "storage unavailable"), cache, 1)
          else
            match userInformationQuery db userId with
            | Except.error e => (Except.error e, cache, 1)
            | Except.ok u =>
              match cacheCfg with
              | some cfg =>
                match cache.set (getUserCacheKey userId (cfg.keyPfx.getD "user:"))
                    u (cfg.ttl.getD 3600) with
                | Except.error e => (Except.error e, cache, 1)
                | Except.ok c2 => (Except.ok u, c2, 1)
              | none => (Except.ok u, cache, 1)

/-- The derive handler of `auth.plugin.ts` (lines 205-276): optional-auth
passthrough with a null user, missing-token rejection, then the `try` block
wrapped by the catch handler, which rethrows elysia `UnauthorizedError`
instances and converts every other exception into
`UnauthorizedError(invalidToken)`. -/
def deriveUser (msgs : AuthMessages) (requireAuth : Bool)
    (cacheCfg : Option CacheConfig) (cache : CacheModel) (db : List UserRow)
    (storageFault : Bool) (bearerTok : Option String)
    (verify : String → Option JWTPayload) : DeriveOutcome :=
  if !requireAuth && bearerTok.isNone then
    ⟨Except.ok none, cache, 0⟩
  else
    match bearerTok with
    | none => ⟨Except.error (AuthError.unauthorized msgs.noToken), cache, 0⟩
    | some tok =>
      match tryResolve msgs cacheCfg cache db storageFault tok verify with
      | (Except.ok u, c2, n) => ⟨Except.ok (some u), c2, n⟩
      | (Except.error e, c2, n) =>
        if e.isElysiaUnauthorized then ⟨Except.error e, c2, n⟩
        else ⟨Except.error (AuthError.unauthorized msgs.invalidToken), c2, n⟩

/-- C1: for every identity whose roles contain the configured superuser role,
the rbac guard allows any requirement (roles, permissions, or both, of any
contents), and the standalone requireRoles / requirePermissions helpers do
not throw. -/
theorem superuser_bypasses_all_checks
    (msgs : AuthMessages) (u : UserInformation) (config : RBACGuardOptions)
    (rs ps : List String) (sr : String)
    (hconfig : (config.superuserRole.getD "superuser") ∈ u.roles)
    (hsr : sr ∈ u.roles) :
    rbacGuard msgs (some u) config = Except.ok () ∧
    requireRoles u rs sr = Except.ok () ∧
    requirePermissions u ps sr = Except.ok () := by
  obtain ⟨cr, cp, cs⟩ := config
  simp only at hconfig
  refine ⟨?_, ?_, ?_⟩
  · cases cr <;> cases cp <;>
      simp [rbacGuard, checkRoles, checkPermissions, hconfig]
  · simp [requireRoles, checkRoles, hsr]
  · simp [requirePermissions, checkPermissions, hsr]

/-- Witness for C1 at a concrete superuser identity and requirement. -/
theorem superuser_bypasses_all_checks_witness :
    rbacGuard defaultMessages (some ⟨"1", "Root", "root@example.com", ["superuser"], []⟩)
        ⟨some ["admin"], some ["anything.nonexistent"], none⟩ = Except.ok () ∧
    requireRoles ⟨"1", "Root", "root@example.com", ["superuser"], []⟩ ["admin"]
        "superuser" = Except.ok () ∧
    requirePermissions ⟨"1", "Root", "root@example.com", ["superuser"], []⟩
        ["users.delete"] "superuser" = Except.ok () :=
  superuser_bypasses_all_checks defaultMessages
    ⟨"1", "Root", "root@example.com", ["superuser"], []⟩
    ⟨some ["admin"], some ["anything.nonexistent"], none⟩
    ["admin"] ["users.delete"] "superuser" (by decide) (by decide)

/-- C2: for a non-superuser identity and a requirement declaring both a
non-empty roles list and a non-empty permissions list, the rbac guard (and
the variant plugin's guard) allows iff the identity holds at least one
required role AND holds every required permission; any failure it raises is
a ForbiddenError. -/
theorem combined_requirement_is_and
    (msgs : AuthMessages) (u : UserInformation) (rs ps : List String) (sr : String)
    (hsu : sr ∉ u.roles) (hsuD : "superuser" ∉ u.roles)
    (hrs : rs ≠ []) (hps : ps ≠ []) :
    (rbacGuard msgs (some u) ⟨some rs, some ps, some sr⟩ = Except.ok ()
      ↔ ((∃ r ∈ rs, r ∈ u.roles) ∧ ∀ p ∈ ps, p ∈ u.permissions)) ∧
    (rbacGuardVariant msgs (some u) (some rs) (some ps) = Except.ok ()
      ↔ ((∃ r ∈ rs, r ∈ u.roles) ∧ ∀ p ∈ ps, p ∈ u.permissions)) ∧
    (∀ e, rbacGuard msgs (some u) ⟨some rs, some ps, some sr⟩ = Except.error e →
      ∃ m, e = AuthError.forbidden m) := by
  by_cases hA : ∃ r ∈ rs, r ∈ u.roles <;>
    by_cases hB : ∀ p ∈ ps, p ∈ u.permissions
  · have hAt : (∃ r ∈ rs, r ∈ u.roles) = True := eq_true hA
    have hBt : (∀ p ∈ ps, p ∈ u.permissions) = True := eq_true hB
    have hcR : (∀ x ∈ rs, x ∉ u.roles) = False :=
      eq_false (by push_neg; exact hA)
    have hcP : (∃ x ∈ ps, x ∉ u.permissions) = False :=
      eq_false (by push_neg; exact hB)
    simp [rbacGuard, rbacGuardVariant, checkRoles, checkPermissions,
      hsu, hsuD, hrs, hps, hAt, hBt, hcR, hcP]
  · have hAt : (∃ r ∈ rs, r ∈ u.roles) = True := eq_true hA
    have hBt : (∀ p ∈ ps, p ∈ u.permissions) = False := eq_false hB
    have hcR : (∀ x ∈ rs, x ∉ u.roles) = False :=
      eq_false (by push_neg; exact hA)
    have hcP : (∃ x ∈ ps, x ∉ u.permissions) = True :=
      eq_true (by push_neg at hB; exact hB)
    simp [rbacGuard, rbacGuardVariant, checkRoles, checkPermissions,
      hsu, hsuD, hrs, hps, hAt, hBt, hcR, hcP]
  · have hAt : (∃ r ∈ rs, r ∈ u.roles) = False := eq_false hA
    have hBt : (∀ p ∈ ps, p ∈ u.permissions) = True := eq_true hB
    have hcR : (∀ x ∈ rs, x ∉ u.roles) = True :=
      eq_true (by push_neg at hA; exact hA)
    have hcP : (∃ x ∈ ps, x ∉ u.permissions) = False :=
      eq_false (by push_neg; exact hB)
    simp [rbacGuard, rbacGuardVariant, checkRoles, checkPermissions,
      hsu, hsuD, hrs, hps, hAt, hBt, hcR, hcP]
  · have hAt : (∃ r ∈ rs, r ∈ u.roles) = False := eq_false hA
    have hBt : (∀ p ∈ ps, p ∈ u.permissions) = False := eq_false hB
    have hcR : (∀ x ∈ rs, x ∉ u.roles) = True :=
      eq_true (by push_neg at hA; exact hA)
    have hcP : (∃ x ∈ ps, x ∉ u.permissions) = True :=
      eq_true (by push_neg at hB; exact hB)
    simp [rbacGuard, rbacGuardVariant, checkRoles, checkPermissions,
      hsu, hsuD, hrs, hps, hAt, hBt, hcR, hcP]

/-- Witness for C2: an editor holding one of the required roles and all
required permissions is allowed. -/
theorem combined_requirement_is_and_witness :
    rbacGuard defaultMessages
      (some ⟨"2", "Ed", "ed@example.com", ["editor"], ["posts.write"]⟩)
      ⟨some ["editor", "admin"], some ["posts.write"], some "superuser"⟩ =
      Except.ok () :=
  ((combined_requirement_is_and defaultMessages
      ⟨"2", "Ed", "ed@example.com", ["editor"], ["posts.write"]⟩
      ["editor", "admin"] ["posts.write"] "superuser"
      (by decide) (by decide) (by decide) (by decide)).1).mpr
    ⟨⟨"editor", by decide, by decide⟩, by decide⟩

/-- C3: for a non-superuser identity, a requirement with a non-empty roles
list allows iff some required role is held (any-of); otherwise the rbac
guard and RoleGuard.canActivate fail with ForbiddenError. -/
theorem roles_requirement_any_of
    (msgs : AuthMessages) (u : UserInformation) (rs : List String) (sr : String)
    (hsu : sr ∉ u.roles) (hrs : rs ≠ []) :
    (rbacGuard msgs (some u) ⟨some rs, none, some sr⟩ = Except.ok ()
      ↔ ∃ r ∈ rs, r ∈ u.roles) ∧
    ((¬ ∃ r ∈ rs, r ∈ u.roles) →
      rbacGuard msgs (some u) ⟨some rs, none, some sr⟩ =
        Except.error (AuthError.forbidden rolesForbiddenMsg)) ∧
    (RoleGuard.canActivate u rs sr = Except.ok true ↔ ∃ r ∈ rs, r ∈ u.roles) ∧
    ((¬ ∃ r ∈ rs, r ∈ u.roles) →
      RoleGuard.canActivate u rs sr =
        Except.error (AuthError.forbidden rolesForbiddenMsg)) := by
  by_cases hA : ∃ r ∈ rs, r ∈ u.roles
  · have hAt : (∃ r ∈ rs, r ∈ u.roles) = True := eq_true hA
    have hcR : (∀ x ∈ rs, x ∉ u.roles) = False :=
      eq_false (by push_neg; exact hA)
    simp [rbacGuard, RoleGuard.canActivate, checkRoles, hsu, hrs, hAt, hcR]
  · have hAt : (∃ r ∈ rs, r ∈ u.roles) = False := eq_false hA
    have hcR : (∀ x ∈ rs, x ∉ u.roles) = True :=
      eq_true (by push_neg at hA; exact hA)
    simp [rbacGuard, RoleGuard.canActivate, checkRoles, hsu, hrs, hAt, hcR]

/-- Witness for C3: a moderator passes a requirement allowing admin or
moderator. -/
theorem roles_requirement_any_of_witness :
    rbacGuard defaultMessages (some ⟨"3", "Mo", "mo@example.com", ["moderator"], []⟩)
      ⟨some ["admin", "moderator"], none, some "superuser"⟩ = Except.ok () :=
  ((roles_requirement_any_of defaultMessages
      ⟨"3", "Mo", "mo@example.com", ["moderator"], []⟩
      ["admin", "moderator"] "superuser" (by decide) (by decide)).1).mpr
    ⟨"moderator", by decide, by decide⟩

/-- C4: for a non-superuser identity, a requirement with a non-empty
permissions list allows iff every required permission is held (all-of);
if one is missing the rbac guard and PermissionGuard.canActivate fail with
ForbiddenError. -/
theorem permissions_requirement_all_of
    (msgs : AuthMessages) (u : UserInformation) (ps : List String) (sr : String)
    (hsu : sr ∉ u.roles) (hps : ps ≠ []) :
    (rbacGuard msgs (some u) ⟨none, some ps, some sr⟩ = Except.ok ()
      ↔ ∀ p ∈ ps, p ∈ u.permissions) ∧
    ((¬ ∀ p ∈ ps, p ∈ u.permissions) →
      rbacGuard msgs (some u) ⟨none, some ps, some sr⟩ =
        Except.error (AuthError.forbidden permissionsForbiddenMsg)) ∧
    (PermissionGuard.canActivate u ps sr = Except.ok true ↔
      ∀ p ∈ ps, p ∈ u.permissions) ∧
    ((¬ ∀ p ∈ ps, p ∈ u.permissions) →
      PermissionGuard.canActivate u ps sr =
        Except.error (AuthError.forbidden permissionsForbiddenMsg)) := by
  by_cases hB : ∀ p ∈ ps, p ∈ u.permissions
  · have hBt : (∀ p ∈ ps, p ∈ u.permissions) = True := eq_true hB
    have hcP : (∃ x ∈ ps, x ∉ u.permissions) = False :=
      eq_false (by push_neg; exact hB)
    simp [rbacGuard, PermissionGuard.canActivate, checkPermissions,
      hsu, hps, hBt, hcP]
  · have hBt : (∀ p ∈ ps, p ∈ u.permissions) = False := eq_false hB
    have hcP : (∃ x ∈ ps, x ∉ u.permissions) = True :=
      eq_true (by push_neg at hB; exact hB)
    simp [rbacGuard, PermissionGuard.canActivate, checkPermissions,
      hsu, hps, hBt, hcP]

/-- Witness for C4: an identity holding both required permissions is
allowed. -/
theorem permissions_requirement_all_of_witness :
    rbacGuard defaultMessages
      (some ⟨"4", "Op", "op@example.com", ["staff"], ["users.delete", "users.read"]⟩)
      ⟨none, some ["users.delete", "users.read"], some "superuser"⟩ = Except.ok () :=
  ((permissions_requirement_all_of defaultMessages
      ⟨"4", "Op", "op@example.com", ["staff"], ["users.delete", "users.read"]⟩
      ["users.delete", "users.read"] "superuser" (by decide) (by decide)).1).mpr
    (by decide)

/-- Sample role row used by concrete scenarios (the cache-miss-then-hit
scenario of the spec). -/
def sampleRole : RoleRow := ⟨"r1", "user", ["dashboard.view"]⟩

/-- Sample database holding one active, non-deleted user `u1`. -/
def sampleDb : List UserRow :=
  [⟨"u1", "User One", "u1@example.com", "active", none, [sampleRole]⟩]

/-- The identity the repository assembles for `u1` from `sampleDb`. -/
def sampleUser : UserInformation :=
  ⟨"u1", "User One", "u1@example.com", ["user"], ["dashboard.view"]⟩

/-- JWT oracle that verifies every token to a payload with string id u1. -/
def sampleVerify : String → Option JWTPayload := fun _ => some ⟨JsId.str "u1"⟩

/-- C5 counterexample: the standalone requireRoles helper invoked with an
empty required-roles list throws ForbiddenError for an identity lacking the
superuser role, because any-of over the empty list is false — the claim that
an empty requirement always passes fails on the standalone role check. -/
theorem empty_roles_requirement_counterexample :
    requireRoles ⟨"u1", "User One", "u1@example.com", ["user"], []⟩ [] "superuser" =
      Except.error (AuthError.forbidden rolesForbiddenMsg) := by decide

/-- C5 amended: an empty or absent requirement passes the rbac guard (empty
lists are skipped by the length check) and requirePermissions with an empty
list passes vacuously, for every identity; but requireRoles with an empty
list throws ForbiddenError exactly when the identity lacks the superuser
role. -/
theorem empty_requirement_amended
    (msgs : AuthMessages) (u : UserInformation) (sr : String) :
    rbacGuard msgs (some u) ⟨some [], some [], some sr⟩ = Except.ok () ∧
    rbacGuard msgs (some u) ⟨none, none, some sr⟩ = Except.ok () ∧
    requirePermissions u [] sr = Except.ok () ∧
    (sr ∉ u.roles →
      requireRoles u [] sr = Except.error (AuthError.forbidden rolesForbiddenMsg)) ∧
    (sr ∈ u.roles → requireRoles u [] sr = Except.ok ()) := by
  refine ⟨by simp [rbacGuard], by simp [rbacGuard], ?_, ?_, ?_⟩
  · by_cases hsu : sr ∈ u.roles <;> simp [requirePermissions, checkPermissions, hsu]
  · intro hsu; simp [requireRoles, checkRoles, hsu]
  · intro hsu; simp [requireRoles, checkRoles, hsu]

/-- Witness for the amended C5 at a concrete non-superuser identity. -/
theorem empty_requirement_amended_witness :
    requireRoles ⟨"e1", "Ed", "ed@example.com", ["editor"], ["posts.write"]⟩ []
      "superuser" = Except.error (AuthError.forbidden rolesForbiddenMsg) :=
  (empty_requirement_amended defaultMessages
      ⟨"e1", "Ed", "ed@example.com", ["editor"], ["posts.write"]⟩
      "superuser").2.2.2.1 (by decide)

/-- C6 counterexample: with a cache configured whose `set` throws on the
computed key, resolution of `u1` fails with the generic invalid-token
UnauthorizedError even though the storage load succeeded (second conjunct) —
the cache write is not best-effort. -/
theorem cache_write_failure_counterexample :
    (deriveUser defaultMessages true (some ⟨none, none⟩) ⟨[], [], ["user:u1"]⟩
        sampleDb false (some "tok") sampleVerify).result =
      Except.error (AuthError.unauthorized "Invalid authentication token") ∧
    userInformationQuery sampleDb "u1" = Except.ok sampleUser := by decide

/-- C6 amended: after a cache miss and a successful storage load, a failing
cache write makes the whole resolution fail — the thrown error is caught by
the generic handler and surfaced as UnauthorizedError(invalidToken); the
loaded identity is discarded (storage was nevertheless called once and the
cache is unchanged). -/
theorem cache_write_failure_amended
    (msgs : AuthMessages) (cfg : CacheConfig) (c : CacheModel) (db : List UserRow)
    (tok userId : String) (pl : JWTPayload) (u : UserInformation)
    (verify : String → Option JWTPayload)
    (hv : verify tok = some pl) (ht : pl.id.truthy = true)
    (hn : pl.id.normalize = some userId)
    (hgf : getUserCacheKey userId (cfg.keyPfx.getD "user:") ∉ c.getFails)
    (hmiss : c.lookup (getUserCacheKey userId (cfg.keyPfx.getD "user:")) = none)
    (hsf : getUserCacheKey userId (cfg.keyPfx.getD "user:") ∈ c.setFails)
    (hq : userInformationQuery db userId = Except.ok u) :
    (deriveUser msgs true (some cfg) c db false (some tok) verify).result =
      Except.error (AuthError.unauthorized msgs.invalidToken) ∧
    (deriveUser msgs true (some cfg) c db false (some tok) verify).storageCalls = 1 ∧
    (deriveUser msgs true (some cfg) c db false (some tok) verify).cacheAfter = c := by
  refine ⟨?_, ?_, ?_⟩ <;>
    simp [deriveUser, tryResolve, CacheModel.get, CacheModel.set,
      AuthError.isElysiaUnauthorized, hv, ht, hn, hgf, hmiss, hsf, hq]

/-- Witness for the amended C6 at the concrete failing-set scenario. -/
theorem cache_write_failure_amended_witness :
    (deriveUser defaultMessages true (some ⟨none, none⟩) ⟨[], [], ["user:u1"]⟩
        sampleDb false (some "tok") sampleVerify).storageCalls = 1 :=
  (cache_write_failure_amended defaultMessages ⟨none, none⟩ ⟨[], [], ["user:u1"]⟩
    sampleDb "tok" "u1" ⟨JsId.str "u1"⟩ sampleUser sampleVerify
    rfl rfl rfl (by decide) rfl (by decide) (by decide)).2.1

/-- C7: with a cache configured and no fault injected, resolving a subject
that misses the cache loads storage once and writes the cache; resolving the
same subject again on the resulting cache state returns the identical
identity with no storage access. -/
theorem cached_resolution_single_storage_call
    (msgs : AuthMessages) (cfg : CacheConfig) (c : CacheModel) (db : List UserRow)
    (tok userId : String) (pl : JWTPayload) (u : UserInformation)
    (verify : String → Option JWTPayload)
    (hv : verify tok = some pl) (ht : pl.id.truthy = true)
    (hn : pl.id.normalize = some userId)
    (hgf : getUserCacheKey userId (cfg.keyPfx.getD "user:") ∉ c.getFails)
    (hmiss : c.lookup (getUserCacheKey userId (cfg.keyPfx.getD "user:")) = none)
    (hsf : getUserCacheKey userId (cfg.keyPfx.getD "user:") ∉ c.setFails)
    (hq : userInformationQuery db userId = Except.ok u) :
    (deriveUser msgs true (some cfg) c db false (some tok) verify).result =
      Except.ok (some u) ∧
    (deriveUser msgs true (some cfg) c db false (some tok) verify).storageCalls = 1 ∧
    (deriveUser msgs true (some cfg)
      (deriveUser msgs true (some cfg) c db false (some tok) verify).cacheAfter
      db false (some tok) verify).result = Except.ok (some u) ∧
    (deriveUser msgs true (some cfg)
      (deriveUser msgs true (some cfg) c db false (some tok) verify).cacheAfter
      db false (some tok) verify).storageCalls = 0 := by
  have h1 : deriveUser msgs true (some cfg) c db false (some tok) verify =
      ⟨Except.ok (some u),
       ⟨(getUserCacheKey userId (cfg.keyPfx.getD "user:"), u, cfg.ttl.getD 3600) ::
          c.entries.filter
            (fun e => !(e.fst == getUserCacheKey userId (cfg.keyPfx.getD "user:"))),
        c.getFails, c.setFails⟩, 1⟩ := by
    simp [deriveUser, tryResolve, CacheModel.get, CacheModel.set,
      hv, ht, hn, hgf, hmiss, hsf, hq]
  have h2 : deriveUser msgs true (some cfg)
      (⟨(getUserCacheKey userId (cfg.keyPfx.getD "user:"), u, cfg.ttl.getD 3600) ::
          c.entries.filter
            (fun e => !(e.fst == getUserCacheKey userId (cfg.keyPfx.getD "user:"))),
        c.getFails, c.setFails⟩ : CacheModel) db false (some tok) verify =
      ⟨Except.ok (some u),
       ⟨(getUserCacheKey userId (cfg.keyPfx.getD "user:"), u, cfg.ttl.getD 3600) ::
          c.entries.filter
            (fun e => !(e.fst == getUserCacheKey userId (cfg.keyPfx.getD "user:"))),
        c.getFails, c.setFails⟩, 0⟩ := by
    simp [deriveUser, tryResolve, CacheModel.get, CacheModel.lookup,
      List.find?, hv, ht, hn, hgf]
  rw [h1, h2]
  exact ⟨rfl, rfl, rfl, rfl⟩

/-- Witness for C7 at the concrete cache-miss-then-hit scenario of the spec. -/
theorem cached_resolution_single_storage_call_witness :
    (deriveUser defaultMessages true (some ⟨none, none⟩) ⟨[], [], []⟩
        sampleDb false (some "tok") sampleVerify).result = Except.ok (some sampleUser) ∧
    (deriveUser defaultMessages true (some ⟨none, none⟩)
        (deriveUser defaultMessages true (some ⟨none, none⟩) ⟨[], [], []⟩
          sampleDb false (some "tok") sampleVerify).cacheAfter
        sampleDb false (some "tok") sampleVerify).storageCalls = 0 :=
  have h := cached_resolution_single_storage_call defaultMessages ⟨none, none⟩
    ⟨[], [], []⟩ sampleDb "tok" "u1" ⟨JsId.str "u1"⟩ sampleUser sampleVerify
    rfl rfl rfl (by decide) rfl (by decide) (by decide)
  ⟨h.1, h.2.2.2⟩

/-- C8: when every database row for the subject is soft-deleted or not
active (or no row exists at all), resolution fails with an UnauthorizedError
(an authentication failure mapped to 401, not a generic error) and the cache
is left unchanged — no entry is written.  The repository throws the base
UnauthorizedError("User not found"); the derive catch handler, testing
instanceof against the elysia subclass, rewraps it as
UnauthorizedError(invalidToken), still a 401 authentication failure. -/
theorem missing_user_is_auth_failure
    (msgs : AuthMessages) (cfg : CacheConfig) (c : CacheModel) (db : List UserRow)
    (tok userId : String) (pl : JWTPayload)
    (verify : String → Option JWTPayload)
    (hv : verify tok = some pl) (ht : pl.id.truthy = true)
    (hn : pl.id.normalize = some userId)
    (hgf : getUserCacheKey userId (cfg.keyPfx.getD "user:") ∉ c.getFails)
    (hmiss : c.lookup (getUserCacheKey userId (cfg.keyPfx.getD "user:")) = none)
    (habsent : ∀ row ∈ db, row.id = userId →
      ¬(row.status = "active" ∧ row.deleted_at = none)) :
    (deriveUser msgs true (some cfg) c db false (some tok) verify).result =
      Except.error (AuthError.unauthorized msgs.invalidToken) ∧
    (deriveUser msgs true (some cfg) c db false (some tok) verify).cacheAfter = c := by
  have hfind : db.find? (fun row =>
      row.id == userId && row.status == "active" && row.deleted_at.isNone) = none := by
    rw [List.find?_eq_none]
    intro row hrow hP
    rw [Bool.and_eq_true, Bool.and_eq_true] at hP
    obtain ⟨⟨hid, hst⟩, hdel⟩ := hP
    exact habsent row hrow (by simpa using hid)
      ⟨by simpa using hst, by simpa using hdel⟩
  have hq : userInformationQuery db userId =
      Except.error (AuthError.unauthorizedBase "User not found") := by
    simp [userInformationQuery, hfind]
  refine ⟨?_, ?_⟩ <;>
    simp [deriveUser, tryResolve, CacheModel.get,
      AuthError.isElysiaUnauthorized, hv, ht, hn, hgf, hmiss, hq]

/-- Witness for C8: a database whose only row for u1 is soft-deleted. -/
theorem missing_user_is_auth_failure_witness :
    (deriveUser defaultMessages true (some ⟨none, none⟩) ⟨[], [], []⟩
        [⟨"u1", "User One", "u1@example.com", "active", some 5, [sampleRole]⟩]
        false (some "tok") sampleVerify).result =
      Except.error (AuthError.unauthorized "Invalid authentication token") ∧
    (deriveUser defaultMessages true (some ⟨none, none⟩) ⟨[], [], []⟩
        [⟨"u1", "User One", "u1@example.com", "active", some 5, [sampleRole]⟩]
        false (some "tok") sampleVerify).cacheAfter = ⟨[], [], []⟩ :=
  missing_user_is_auth_failure defaultMessages ⟨none, none⟩ ⟨[], [], []⟩
    [⟨"u1", "User One", "u1@example.com", "active", some 5, [sampleRole]⟩]
    "tok" "u1" ⟨JsId.str "u1"⟩ sampleVerify
    rfl rfl rfl (by decide) rfl (by decide)

/-- C9 counterexample: a cache read that throws an I/O error is not surfaced
as an opaque failure distinct from a credential failure — the derive catch
handler converts it into the invalid-token UnauthorizedError, at a state
where the user exists in storage. -/
theorem io_error_conversion_counterexample :
    (deriveUser defaultMessages true (some ⟨none, none⟩) ⟨[], ["user:u1"], []⟩
        sampleDb false (some "tok") sampleVerify).result =
      Except.error (AuthError.unauthorized "Invalid authentication token") := by
  decide

/-- C9 amended: an I/O error thrown by the cache read, or by the storage
read, is caught by the derive catch handler and converted into the generic
invalid-token UnauthorizedError (401) — it is not treated as not-found, but
it is indistinguishable from a credential failure. -/
theorem io_error_wrapped_as_invalid_token
    (msgs : AuthMessages) (cfg : CacheConfig) (c : CacheModel) (db : List UserRow)
    (tok userId : String) (pl : JWTPayload)
    (verify : String → Option JWTPayload)
    (hv : verify tok = some pl) (ht : pl.id.truthy = true)
    (hn : pl.id.normalize = some userId) :
    (getUserCacheKey userId (cfg.keyPfx.getD "user:") ∈ c.getFails →
      (deriveUser msgs true (some cfg) c db false (some tok) verify).result =
        Except.error (AuthError.unauthorized msgs.invalidToken)) ∧
    (getUserCacheKey userId (cfg.keyPfx.getD "user:") ∉ c.getFails →
      c.lookup (getUserCacheKey userId (cfg.keyPfx.getD "user:")) = none →
      (deriveUser msgs true (some cfg) c db true (some tok) verify).result =
        Except.error (AuthError.unauthorized msgs.invalidToken)) := by
  refine ⟨?_, ?_⟩
  · intro hgf
    simp [deriveUser, tryResolve, CacheModel.get,
      AuthError.isElysiaUnauthorized, hv, ht, hn, hgf]
  · intro hgf hmiss
    simp [deriveUser, tryResolve, CacheModel.get,
      AuthError.isElysiaUnauthorized, hv, ht, hn, hgf, hmiss]

/-- Witness for the amended C9: storage unavailable while resolving u1. -/
theorem io_error_wrapped_as_invalid_token_witness :
    (deriveUser defaultMessages true (some ⟨none, none⟩) ⟨[], [], []⟩
        sampleDb true (some "tok") sampleVerify).result =
      Except.error (AuthError.unauthorized "Invalid authentication token") :=
  (io_error_wrapped_as_invalid_token defaultMessages ⟨none, none⟩ ⟨[], [], []⟩
    sampleDb "tok" "u1" ⟨JsId.str "u1"⟩ sampleVerify rfl rfl rfl).2
    (by decide) rfl

/-- C10: on an optional-auth route (requireAuth false) a request without a
bearer token resolves to a null identity and proceeds, while a supplied
token that fails verification throws UnauthorizedError — the two outcomes
are distinct values. -/
theorem optional_auth_null_identity
    (msgs : AuthMessages) (cfg : Option CacheConfig) (c : CacheModel)
    (db : List UserRow) (sf : Bool) (verify : String → Option JWTPayload)
    (tok : String) (hv : verify tok = none) :
    (deriveUser msgs false cfg c db sf none verify).result = Except.ok none ∧
    (deriveUser msgs false cfg c db sf (some tok) verify).result =
      Except.error (AuthError.unauthorized msgs.invalidToken) ∧
    (Except.ok none : Except AuthError (Option UserInformation)) ≠
      Except.error (AuthError.unauthorized msgs.invalidToken) := by
  refine ⟨by simp [deriveUser], ?_, by simp⟩
  simp [deriveUser, tryResolve, AuthError.isElysiaUnauthorized, hv]

/-- Witness for C10 with a verifier rejecting every token. -/
theorem optional_auth_null_identity_witness :
    (deriveUser defaultMessages false none ⟨[], [], []⟩ sampleDb false none
        (fun _ => none)).result = Except.ok none ∧
    (deriveUser defaultMessages false none ⟨[], [], []⟩ sampleDb false
        (some "bad") (fun _ => none)).result =
      Except.error (AuthError.unauthorized "Invalid authentication token") :=
  have h := optional_auth_null_identity defaultMessages none ⟨[], [], []⟩
    sampleDb false (fun _ => none) "bad" rfl
  ⟨h.1, h.2.1⟩

end MonorepoAuth
